import Mathlib

/-!
# Verification of the `complete_analysis` e-commerce pipeline

Shallow embedding of the repository's data-analysis pipeline
(`complete_analysis/*.py` and `complete_analysis/generated_code/*.py`)
over rational-valued tabular frames, together with theorems settling the
frozen claims C1–C10 about the pipeline.

Conventions:
* pandas numeric cells are embedded as `Option ℚ` (`none` = NaN); pandas
  comparisons against NaN are `False`, which the embedding reproduces
  explicitly at each use site;
* floating-point arithmetic is embedded as exact rational arithmetic;
  Python's `round(x, 2)` (round-half-to-even in the decimal sense) is
  embedded as `round2`;
* fallible operations (CSV reads) are embedded in `Except`.
-/

namespace CompleteAnalysis

/-- A single cell of a loaded frame: missing (NaN/NaT), numeric, or text. -/
inductive Cell
  | null : Cell
  | num : ℚ → Cell
  | str : String → Cell
deriving DecidableEq, Repr

/-- pandas column dtype, as far as the pipeline inspects it
(`select_dtypes(include=[np.number])` and the `!= 'datetime64[ns]'` test). -/
inductive Dtype
  | numeric : Dtype
  | object : Dtype
  | datetime : Dtype
deriving DecidableEq, Repr

/-- A named column of a frame. -/
structure Column where
  name : String
  dtype : Dtype
  cells : List Cell
deriving DecidableEq, Repr

/-- A loaded dataframe: `nrows` is `df.shape[0]`, `columns` the ordered
columns (`df.shape[1] = columns.length`). -/
structure DataFrame where
  nrows : ℕ
  columns : List Column
deriving DecidableEq, Repr

/-- The numeric value of a cell, if it is numeric (`none` for NaN and text,
matching how a numeric-dtype column stores only numbers or NaN). -/
def Cell.toNum : Cell → Option ℚ
  | Cell.num q => some q
  | _ => none

/-- `pd.isnull` on one cell. -/
def Cell.isNull : Cell → Bool
  | Cell.null => true
  | _ => false

/-- The non-null values of a numeric column (`df[col].dropna()`, and also the
population over which `df[col].quantile` computes). -/
def nonNull (col : List (Option ℚ)) : List ℚ :=
  col.filterMap id

/-- pandas `Series.quantile(q)` with the default linear interpolation:
on the ascending non-null values `x_0 ≤ … ≤ x_(n-1)`, with `h = q*(n-1)`,
the result is `x_⌊h⌋ + (h - ⌊h⌋) * (x_(⌊h⌋+1) - x_⌊h⌋)`.
Junk value `0` on an empty population (every caller guards on nonemptiness). -/
def quantile (xs : List ℚ) (q : ℚ) : ℚ :=
  let s := xs.mergeSort (· ≤ ·)
  if s.length = 0 then 0
  else
    let h : ℚ := q * ((s.length : ℚ) - 1)
    let i : ℕ := (⌊h⌋).toNat
    let lo := s.getD i 0
    let hi := s.getD (min (i + 1) (s.length - 1)) 0
    lo + (h - (⌊h⌋ : ℚ)) * (hi - lo)

/-- `Q1 - 1.5*IQR` for a numeric column, with `Q1`/`Q3` the 0.25/0.75
quantiles of its non-null values (`data_quality_assessment.py` lines 72–75,
`exploratory_analysis.py` lines 264–267, `quality_checks.py` lines 36–41). -/
def lowerFence (col : List (Option ℚ)) : ℚ :=
  let q1 := quantile (nonNull col) (1/4)
  let q3 := quantile (nonNull col) (3/4)
  q1 - (3/2) * (q3 - q1)

/-- `Q3 + 1.5*IQR` for a numeric column. -/
def upperFence (col : List (Option ℚ)) : ℚ :=
  let q1 := quantile (nonNull col) (1/4)
  let q3 := quantile (nonNull col) (3/4)
  q3 + (3/2) * (q3 - q1)

/-- One cell's contribution to `((df[col] < lower_bound) | (df[col] > upper_bound))`:
pandas comparisons against NaN are `False`, so a null cell never tests true. -/
def cellOutlier (lb ub : ℚ) : Option ℚ → Bool
  | none => false
  | some x => decide (x < lb) || decide (ub < x)

/-- `DataQualityAssessment.assess_accuracy`, per-column outlier count
(`data_quality_assessment.py` lines 70–78): guarded by
`df[col].notna().sum() > 0`, the count is
`((df[col] < lower_bound) | (df[col] > upper_bound)).sum()` over the whole
column (NaN comparisons being `False`). -/
def assess_accuracy_outliers (col : List (Option ℚ)) : ℕ :=
  if 0 < (nonNull col).length then
    col.countP (cellOutlier (lowerFence col) (upperFence col))
  else 0

/-- `ExploratoryDataAnalysis.detect_anomalies`, per-column outlier count
(the body of the loop at `exploratory_analysis.py` lines 259–282):
`data = df[col].dropna()`, and the count is
`len(data[(data < lower_bound) | (data > upper_bound)])`. The loop itself
visits only the first eight numeric columns (`for col in numeric_cols[:8]`,
line 259); that truncation is embedded at frame level by
`detect_anomalies_statistical_outliers` below. -/
def detect_anomalies_outliers (col : List (Option ℚ)) : ℕ :=
  let data := nonNull col
  if 0 < data.length then
    (data.filter (fun x => decide (x < lowerFence col) || decide (upperFence col < x))).length
  else 0

/-- `DataQualityValidator.check_accuracy`, per-column outlier count
(`generated_code/quality_checks.py` lines 33–44): `data = df[col].dropna()`,
and the count is `((data < lower_bound) | (data > upper_bound)).sum()`. -/
def check_accuracy_outliers (col : List (Option ℚ)) : ℕ :=
  let data := nonNull col
  if 0 < data.length then
    data.countP (fun x => decide (x < lowerFence col) || decide (upperFence col < x))
  else 0

/-! ## Rounding

Python's `round(x, 2)` rounds to the nearest multiple of `1/100`, ties to the
even multiple. -/

/-- Round a rational to the nearest integer, ties to even. -/
def roundHalfEven (q : ℚ) : ℤ :=
  if q - (⌊q⌋ : ℚ) < 1/2 then ⌊q⌋
  else if 1/2 < q - (⌊q⌋ : ℚ) then ⌊q⌋ + 1
  else if ⌊q⌋ % 2 = 0 then ⌊q⌋ else ⌊q⌋ + 1

/-- Python `round(x, 2)`. -/
def round2 (q : ℚ) : ℚ := (roundHalfEven (q * 100) : ℚ) / 100

/-! ## JSON-shaped result values

The assessment stages build nested Python dicts that are serialized to JSON;
`J` embeds those dicts (insertion-ordered, as Python dicts are). -/

/-- A JSON-like value: number, text, boolean, object (ordered fields), array. -/
inductive J
  | num : ℚ → J
  | str : String → J
  | bool : Bool → J
  | obj : List (String × J) → J
  | arr : List J → J

/-- Field access on an object (junk `J.num 0` when absent or not an object). -/
def jGet (j : J) (k : String) : J :=
  match j with
  | J.obj fs => (fs.lookup k).getD (J.num 0)
  | _ => J.num 0

/-- The rational carried by a numeric value (junk `0` otherwise). -/
def jNum : J → ℚ
  | J.num q => q
  | _ => 0

/-- The keys of an object, in order. -/
def jKeys : J → List String
  | J.obj fs => fs.map Prod.fst
  | _ => []

/-! ## `DataQualityAssessment` (`data_quality_assessment.py`) and
`DataQualityValidator` (`generated_code/quality_checks.py`) -/

/-- `df.shape[1]`. -/
def DataFrame.ncols (df : DataFrame) : ℕ := df.columns.length

/-- `df[col].isnull().sum()` for one column. -/
def colMissing (c : Column) : ℕ := c.cells.countP Cell.isNull

/-- `df.isnull().sum().sum()`. -/
def DataFrame.missingCells (df : DataFrame) : ℕ :=
  (df.columns.map colMissing).sum

/-- `total_cells = df.shape[0] * df.shape[1]`. -/
def DataFrame.totalCells (df : DataFrame) : ℕ := df.nrows * df.ncols

/-- `completeness_score = (1 - missing_cells / total_cells) * 100`, the formula
shared verbatim by `assess_completeness` (line 48) and `check_completeness`
(line 19). -/
def completeness_score_raw (df : DataFrame) : ℚ :=
  (1 - (df.missingCells : ℚ) / (df.totalCells : ℚ)) * 100

/-- `DataQualityAssessment.assess_completeness` (lines 44–60). Note the
returned `completeness_score` is `round(completeness_score, 2)`. -/
def assess_completeness (df : DataFrame) : J :=
  let missing_by_column : List (String × ℚ) :=
    df.columns.map fun c => (c.name, round2 ((colMissing c : ℚ) / (df.nrows : ℚ) * 100))
  J.obj [
    ("completeness_score", J.num (round2 (completeness_score_raw df))),
    ("missing_cells", J.num (df.missingCells : ℚ)),
    ("total_cells", J.num (df.totalCells : ℚ)),
    ("missing_percentage",
      J.num (round2 ((df.missingCells : ℚ) / (df.totalCells : ℚ) * 100))),
    ("columns_with_missing", J.obj (missing_by_column.map fun p => (p.1, J.num p.2))),
    ("critical_columns",
      J.obj ((missing_by_column.filter fun p => decide (20 < p.2)).map fun p => (p.1, J.num p.2)))]

/-- `DataQualityValidator.check_completeness` (`quality_checks.py` lines
15–26): same division, but the returned score is not rounded. -/
def check_completeness (df : DataFrame) (dataset_name : String) : J :=
  J.obj [
    ("dataset", J.str dataset_name),
    ("completeness_score", J.num (completeness_score_raw df)),
    ("missing_pct", J.num ((df.missingCells : ℚ) / (df.totalCells : ℚ) * 100)),
    ("columns_with_missing", J.obj (df.columns.map fun c => (c.name, J.num (colMissing c : ℚ))))]

/-- `pat in s` (Python substring test). -/
def containsSub (s pat : String) : Bool := (s.splitOn pat).length != 1

/-- `'price' in col.lower() or 'quantity' in col.lower() or 'amount' in
col.lower() or 'value' in col.lower()` (lines 82–83). -/
def nameHasMoney (s : String) : Bool :=
  containsSub s.toLower "price" || containsSub s.toLower "quantity" ||
  containsSub s.toLower "amount" || containsSub s.toLower "value"

/-- `df.select_dtypes(include=[np.number]).columns`. -/
def numericCols (df : DataFrame) : List Column :=
  df.columns.filter fun c => c.dtype == Dtype.numeric

/-- `ExploratoryDataAnalysis.detect_anomalies`, frame-level
`statistical_outliers` scan (`exploratory_analysis.py` lines 251–282): the
loop `for col in numeric_cols[:8]` visits ONLY the first eight numeric
columns, and records a `(column, outlier_count)` entry exactly when the
per-column count is positive (lines 270–282). Numeric columns past the
eighth are never examined. -/
def detect_anomalies_statistical_outliers (df : DataFrame) : List (String × ℕ) :=
  ((numericCols df).take 8).filterMap fun c =>
    let n := detect_anomalies_outliers (c.cells.map Cell.toNum)
    if 0 < n then some (c.name, n) else none

/-- `DataQualityValidator.check_accuracy`, frame-level `outlier_info` dict
(`generated_code/quality_checks.py` lines 30–44): the loop visits EVERY
numeric column and records `(column, outlier_count)` whenever the column has
at least one non-null value. -/
def check_accuracy_outlier_info (df : DataFrame) : List (String × ℕ) :=
  (numericCols df).filterMap fun c =>
    if 0 < (nonNull (c.cells.map Cell.toNum)).length then
      some (c.name, check_accuracy_outliers (c.cells.map Cell.toNum))
    else none

/-- Does a numeric column contain a negative value (`(df[col] < 0).any()`,
NaN comparing `False`)? -/
def colHasNegative (c : Column) : Bool :=
  c.cells.any fun cell =>
    match cell.toNum with
    | some x => decide (x < 0)
    | none => false

/-- The `issues` list of `assess_accuracy` (lines 80–85): one entry per
money-named numeric column containing a negative value. -/
def accuracy_issues (df : DataFrame) : List String :=
  ((numericCols df).filter fun c => nameHasMoney c.name && colHasNegative c).map
    fun c => "Negative values in " ++ c.name

/-- The `type_issues` list of `assess_accuracy` (lines 87–95): date/time-named
columns of non-datetime dtype for which `pd.to_datetime(df[col],
errors='coerce')` raises; whether the library call raises is environment
behaviour, abstracted by `raises`. -/
def type_issues (df : DataFrame) (raises : String → Bool) : List String :=
  (df.columns.filter fun c =>
      (containsSub c.name.toLower "date" || containsSub c.name.toLower "time") &&
      c.dtype != Dtype.datetime && raises c.name).map
    fun c => c.name ++ " cannot be converted to datetime"

/-- `accuracy_score = max(0, 100 - len(issues) * 5 - len(type_issues) * 3)`
(line 97). -/
def accuracy_score (df : DataFrame) (raises : String → Bool) : ℚ :=
  max 0 (100 - (accuracy_issues df).length * 5 - (type_issues df raises).length * 3)

/-- Total `outlier_count` of `assess_accuracy`: the per-column counts summed
over all numeric columns (lines 68–78). -/
def assess_accuracy_outlier_count (df : DataFrame) : ℕ :=
  ((numericCols df).map fun c => assess_accuracy_outliers (c.cells.map Cell.toNum)).sum

/-- `DataQualityAssessment.assess_accuracy` (lines 62–104), returned dict. -/
def assess_accuracy (df : DataFrame) (raises : String → Bool) : J :=
  J.obj [
    ("accuracy_score", J.num (round2 (accuracy_score df raises))),
    ("outlier_count", J.num (assess_accuracy_outlier_count df : ℚ)),
    ("data_issues", J.arr ((accuracy_issues df).map J.str)),
    ("type_issues", J.arr ((type_issues df raises).map J.str))]

/-- Count of elements that repeat an earlier element (`df.duplicated().sum()`
marks every occurrence after the first; `seen` accumulates the prefix). -/
def dupCount {α : Type} [DecidableEq α] : List α → List α → ℕ
  | _, [] => 0
  | seen, x :: xs => (if x ∈ seen then 1 else 0) + dupCount (x :: seen) xs

/-- Row `i` of a frame (cells across columns). -/
def DataFrame.row (df : DataFrame) (i : ℕ) : List Cell :=
  df.columns.map fun c => c.cells.getD i Cell.null

/-- `df.duplicated().sum()`. -/
def duplicatedRows (df : DataFrame) : ℕ :=
  dupCount [] ((List.range df.nrows).map df.row)

/-- `df[col].isnull().any()`. -/
def colHasNullCell (c : Column) : Bool := c.cells.any Cell.isNull

/-- `df[col].duplicated().any()`. -/
def colHasDupCell (c : Column) : Bool := decide (0 < dupCount [] c.cells)

/-- `[col for col in df.columns if 'id' in col.lower()]`. -/
def idCols (df : DataFrame) : List Column :=
  df.columns.filter fun c => containsSub c.name.toLower "id"

/-- The `consistency_issues` list of `assess_consistency` (lines 112–123). -/
def consistency_issues (df : DataFrame) : List String :=
  (idCols df).flatMap fun c =>
    (if colHasNullCell c then ["NULL values found in ID column: " ++ c.name] else []) ++
    (if colHasDupCell c then ["Duplicate IDs found in: " ++ c.name] else [])

/-- `duplicate_percentage = (duplicate_rows / len(df)) * 100` (line 110). -/
def duplicate_percentage (df : DataFrame) : ℚ :=
  (duplicatedRows df : ℚ) / (df.nrows : ℚ) * 100

/-- `consistency_score = max(0, 100 - duplicate_percentage -
len(consistency_issues) * 5)` (line 125). -/
def consistency_score (df : DataFrame) : ℚ :=
  max 0 (100 - duplicate_percentage df - (consistency_issues df).length * 5)

/-- `DataQualityAssessment.assess_consistency` (lines 106–132), returned dict. -/
def assess_consistency (df : DataFrame) : J :=
  J.obj [
    ("consistency_score", J.num (round2 (consistency_score df))),
    ("duplicate_rows", J.num (duplicatedRows df : ℚ)),
    ("duplicate_percentage", J.num (round2 (duplicate_percentage df))),
    ("consistency_issues", J.arr ((consistency_issues df).map J.str))]

/-- `assess_timeliness` score loop (lines 160–172): the score starts at 85 and,
for each date column whose info has a `most_recent_date`, is boosted by 5
(capped at 100) when that date is less than 30 days old. `recent` lists, per
such column, the outcome of the wall-clock test `days_old < 30`. -/
def timeliness_score (recent : List Bool) : ℚ :=
  recent.foldl (fun s b => if b then min 100 (s + 5) else s) 85

/-- `DataQualityAssessment.assess_timeliness` (lines 134–177), returned dict.
The per-column `date_columns` detail (parsed date ranges, wall-clock ages) is
not embedded; only the score and the dict shape are. -/
def assess_timeliness (recent : List Bool) : J :=
  J.obj [
    ("timeliness_score", J.num (round2 (timeliness_score recent))),
    ("date_columns", J.obj [])]

/-- `DataQualityAssessment.calculate_overall_score` (lines 179–195):
`round(0.35*completeness + 0.30*accuracy + 0.20*consistency +
0.15*timeliness, 2)` over the four component dicts. -/
def calculate_overall_score (completeness accuracy consistency timeliness : J) : ℚ :=
  round2 (jNum (jGet completeness "completeness_score") * (35/100) +
          jNum (jGet accuracy "accuracy_score") * (30/100) +
          jNum (jGet consistency "consistency_score") * (20/100) +
          jNum (jGet timeliness "timeliness_score") * (15/100))

/-- Library-behaviour environment for one assessment run: whether
`pd.to_datetime` raises for a column of a dataset, and the per-date-column
recency outcomes feeding `assess_timeliness`. -/
structure AssessEnv where
  raises : String → String → Bool
  recent : String → List Bool

/-- The body of `run_assessment`'s loop (lines 205–229): the per-dataset
result dict stored in `self.results[dataset_name]`. -/
def assess_dataset (env : AssessEnv) (name : String) (df : DataFrame) : J :=
  let completeness := assess_completeness df
  let accuracy := assess_accuracy df (env.raises name)
  let consistency := assess_consistency df
  let timeliness := assess_timeliness (env.recent name)
  J.obj [
    ("dataset_name", J.str name),
    ("shape", J.obj [("rows", J.num (df.nrows : ℚ)), ("columns", J.num (df.ncols : ℚ))]),
    ("completeness", completeness),
    ("accuracy", accuracy),
    ("consistency", consistency),
    ("timeliness", timeliness),
    ("overall_quality_score",
      J.num (calculate_overall_score completeness accuracy consistency timeliness))]

/-- `DataQualityAssessment.run_assessment` (lines 197–238): one result entry
per loaded dataset, keyed by its file name (`self.results` is a dict filled
once per dataset of `self.datasets`). -/
def run_assessment (env : AssessEnv) (datasets : List (String × DataFrame)) :
    List (String × J) :=
  datasets.map fun p => (p.1, assess_dataset env p.1 p.2)

/-! ## `pd.merge` and the pipeline's merge call sites (C2)

A table, for merging purposes, is a list of rows; a row is an ordered
association of column names to cells. `pd.merge(L, R, on=k, how=…)` matches
rows on equality of the key cell (pandas matches NaN keys to NaN keys, which
plain `Cell` equality reproduces). -/

abbrev Row := List (String × Cell)

/-- `how=` argument of `pd.merge` as used in this repository. -/
inductive JoinHow
  | inner : JoinHow
  | left : JoinHow
deriving DecidableEq, Repr

/-- The key cell of a row. -/
def rowKey (k : String) (r : Row) : Option Cell := r.lookup k

/-- A matched output row: left row followed by the right row minus the
(shared) key column. -/
def joinRow (k : String) (l r : Row) : Row :=
  l ++ r.filter fun p => p.1 != k

/-- The column names of the right table (taken from its first row). -/
def rightColNames (R : List Row) : List String := (R.headD []).map Prod.fst

/-- `pd.merge(L, R, on=k, how=how)`: inner keeps matched pairs only; left
additionally keeps unmatched left rows padded with nulls for the right
columns. -/
def pdMerge (L R : List Row) (k : String) (how : JoinHow) : List Row :=
  L.flatMap fun l =>
    let ms := R.filter fun r => rowKey k r == rowKey k l
    match how, ms with
    | JoinHow.left, [] =>
        [l ++ ((rightColNames R).filter fun c => c != k).map fun c => (c, Cell.null)]
    | _, _ => ms.map (joinRow k l)

/-- `DataPreprocessor.merge_datasets`, Orders + Order Items
(`generated_code/data_preprocessing.py` lines 146–151):
`pd.merge(Orders_clean, Order_Items_clean, on='order_id', how='inner')`. -/
def merge_datasets_orders_items (orders_clean items_clean : List Row) : List Row :=
  pdMerge orders_clean items_clean "order_id" JoinHow.inner

/-- `DataPreprocessor.merge_datasets`, Orders + Customers
(`generated_code/data_preprocessing.py` lines 157–162):
`pd.merge(Orders_clean, Customers_clean, on='customer_id', how='left')`. -/
def merge_datasets_orders_customers (orders_clean customers_clean : List Row) : List Row :=
  pdMerge orders_clean customers_clean "customer_id" JoinHow.left

/-- `ExploratoryDataAnalysis.cross_dataset_analysis`, Orders + Order Items
(`exploratory_analysis.py` line 325):
`pd.merge(orders, order_items, on='order_id', how='inner')`. -/
def cross_dataset_orders_items_merge (orders order_items : List Row) : List Row :=
  pdMerge orders order_items "order_id" JoinHow.inner

/-- `ExploratoryDataAnalysis.cross_dataset_analysis`, Customers + Orders
(`exploratory_analysis.py` line 348):
`pd.merge(customers, orders, on='customer_id', how='inner')`. -/
def cross_dataset_customers_orders_merge (customers orders : List Row) : List Row :=
  pdMerge customers orders "customer_id" JoinHow.inner

/-- `EcommerceAnalyzer.analyze_customer_behavior`
(`generated_code/analysis_functions.py` line 36):
`pd.merge(orders_df, customers_df, on='customer_id', how='left')`. -/
def analyze_customer_behavior_merge (orders customers : List Row) : List Row :=
  pdMerge orders customers "customer_id" JoinHow.left

/-- `HypothesisGenerator.generate_correlation_hypotheses`
(`hypothesis_generator.py` line 66):
`pd.merge(orders, order_items, on='order_id', how='inner')`. -/
def correlation_hypotheses_orders_items_merge (orders order_items : List Row) : List Row :=
  pdMerge orders order_items "order_id" JoinHow.inner

/-- `VisualizationCreator` dashboard metrics (`visualization_creator.py`
line 93): `pd.merge(orders, order_items, on='order_id', how='inner')`. -/
def dashboard_orders_items_merge (orders order_items : List Row) : List Row :=
  pdMerge orders order_items "order_id" JoinHow.inner

/-! ## Correlation scans (C3)

Both scans iterate the strict upper triangle `i < j` of a correlation matrix;
the scans' input is embedded as that list of (variable, variable, r) entries. -/

/-- One upper-triangle entry of a correlation matrix. -/
structure CorrEntry where
  var1 : String
  var2 : String
  r : ℚ
deriving DecidableEq, Repr

/-- `ExploratoryDataAnalysis.analyze_correlations`, strong bucket
(`exploratory_analysis.py` lines 207–218): pairs with `abs(corr_value) > 0.7`. -/
def analyze_correlations_strong (m : List CorrEntry) : List CorrEntry :=
  m.filter fun e => decide ((7 : ℚ)/10 < |e.r|)

/-- `ExploratoryDataAnalysis.analyze_correlations`, moderate bucket
(lines 220–231): pairs with `0.4 < abs(corr_value) <= 0.7`. -/
def analyze_correlations_moderate (m : List CorrEntry) : List CorrEntry :=
  m.filter fun e => decide ((4 : ℚ)/10 < |e.r|) && decide (|e.r| ≤ (7 : ℚ)/10)

/-- The stored `strong_correlations` (line 233): the strong bucket truncated
to its first 10 entries. -/
def analyze_correlations_strong_stored (m : List CorrEntry) : List CorrEntry :=
  (analyze_correlations_strong m).take 10

/-- The stored `moderate_correlations` (line 234). -/
def analyze_correlations_moderate_stored (m : List CorrEntry) : List CorrEntry :=
  (analyze_correlations_moderate m).take 10

/-- `EcommerceAnalyzer.correlation_analysis`
(`generated_code/analysis_functions.py` lines 124–148): its only bucket,
named `strong_correlations`, keeps pairs with `abs(corr_val) > 0.5`; there is
no moderate bucket. -/
def correlation_analysis_strong (m : List CorrEntry) : List CorrEntry :=
  m.filter fun e => decide ((1 : ℚ)/2 < |e.r|)

/-! ## CSV loading (C5)

`pd.read_csv` is embedded as an environment function returning `Except`
(`.error` = the library exception). A loader that let the exception propagate
would return `.error`; the repository's loaders wrap every read in
`try/except` and so always return `.ok`. -/

/-- Python `f.endswith('.csv')`, as a character-list suffix test. -/
def endsWithCsv (f : String) : Bool := ".csv".data.isSuffixOf f.data

/-- The shared loader loop (`for file in files: try: … except: continue`):
reads each `.csv` file, keeps successes, drops failures. -/
def loadCsvLoop (files : List String)
    (readCsv : String → Except String DataFrame) : List (String × DataFrame) :=
  (files.filter fun f => endsWithCsv f).foldl
    (fun acc f =>
      match readCsv f with
      | Except.ok df => acc ++ [(f, df)]
      | Except.error _ => acc) []

/-- `DataQualityAssessment.load_datasets` (`data_quality_assessment.py` lines
29–42): each `pd.read_csv` is inside `try/except Exception`, which prints and
continues; the method always returns the datasets dict. -/
def DQA_load_datasets (files : List String)
    (readCsv : String → Except String DataFrame) :
    Except String (List (String × DataFrame)) :=
  Except.ok (loadCsvLoop files readCsv)

/-- `ExploratoryDataAnalysis.load_datasets` (`exploratory_analysis.py` lines
33–46): identical `try/except` loop. -/
def EDA_load_datasets (files : List String)
    (readCsv : String → Except String DataFrame) :
    Except String (List (String × DataFrame)) :=
  Except.ok (loadCsvLoop files readCsv)

/-- `HypothesisGenerator.load_data`, dataset-loading loop
(`hypothesis_generator.py` lines 37–44): `try: … except: pass`. -/
def HG_load_data (files : List String)
    (readCsv : String → Except String DataFrame) :
    Except String (List (String × DataFrame)) :=
  Except.ok (loadCsvLoop files readCsv)

/-! ## `HypothesisGenerator` and the stored frames (C6)

`self.datasets` is a dict of loaded frames; a generator mutates a stored
frame exactly when it assigns a column on a frame obtained from the dict
without `.copy()`. Python column assignment on an alias is embedded as an
update of the corresponding `Datasets` entry. -/

/-- The mapping `self.datasets` (file name ↦ loaded frame). -/
abbrev Datasets := List (String × DataFrame)

/-- Does the frame have a column of this name (`col in df.columns`)? -/
def DataFrame.hasCol (df : DataFrame) (name : String) : Bool :=
  df.columns.any fun c => c.name == name

/-- The cells of a named column (`[]` when absent). -/
def colCells (df : DataFrame) (name : String) : List Cell :=
  ((df.columns.find? fun c => c.name == name).map Column.cells).getD []

/-- Rewrite a named column in place. -/
def DataFrame.mapCol (df : DataFrame) (name : String) (f : Column → Column) : DataFrame :=
  { df with columns := df.columns.map fun c => if c.name = name then f c else c }

/-- Python `df[name] = cells` of dtype `dt`: overwrite the column if present,
else append it. -/
def DataFrame.setCol (df : DataFrame) (name : String) (dt : Dtype) (cells : List Cell) :
    DataFrame :=
  if df.hasCol name then
    df.mapCol name fun c => { c with dtype := dt, cells := cells }
  else
    { df with columns := df.columns ++ [{ name := name, dtype := dt, cells := cells }] }

/-- `pd.to_datetime(df[col], errors='coerce')` applied to a column: per-cell
conversion behaviour is environment behaviour, abstracted by `parse` (invalid
cells come back as `Cell.null`, i.e. NaT); the dtype becomes datetime. -/
def toDatetimeCol (parse : Cell → Cell) (c : Column) : Column :=
  { name := c.name, dtype := Dtype.datetime, cells := c.cells.map parse }

/-- Replace one stored frame of the datasets dict. -/
def stUpdate (st : Datasets) (name : String) (df : DataFrame) : Datasets :=
  st.map fun p => if p.1 = name then (p.1, df) else p

/-- `.str.len().fillna(0)` on one cell of an object column. -/
def strLenCell : Cell → Cell
  | Cell.str s => Cell.num (s.length : ℚ)
  | _ => Cell.num 0

/-- Sum of the numeric cells of a column (nulls contribute 0). -/
def cellsSum (l : List Cell) : ℚ :=
  (l.map fun c => (c.toNum.getD 0)).sum

/-- `HypothesisGenerator.generate_temporal_hypotheses`
(`hypothesis_generator.py` lines 106–179). Line 114 takes
`orders = self.datasets['Orders.csv'].copy()`: every later column assignment
(`orders[col] = pd.to_datetime(…)`, `orders['day_of_week'] = …`,
`orders['hour'] = …`, `orders['delivery_days'] = …`) acts on the local copy,
so the returned datasets mapping is the input one. Emitted hypothesis ids:
HYP_003/HYP_004 need `order_purchase_timestamp` with at least one cell
parsing to a valid date (nonempty `value_counts`); HYP_005 additionally needs
`order_delivered_customer_date` and one row where both dates are valid. -/
def generate_temporal_hypotheses (parse : Cell → Cell) (st : Datasets) :
    List String × Datasets :=
  match st.lookup "Orders.csv" with
  | none => ([], st)
  | some df0 =>
    let orders := ["order_purchase_timestamp", "order_approved_at",
        "order_delivered_customer_date"].foldl
      (fun d col => if d.hasCol col then d.mapCol col (toDatetimeCol parse) else d) df0
    let tsCells := colCells orders "order_purchase_timestamp"
    let dlCells := colCells orders "order_delivered_customer_date"
    let hasValidTs := tsCells.any fun c => !c.isNull
    let h34 :=
      if orders.hasCol "order_purchase_timestamp" then
        (if hasValidTs then ["HYP_003"] else []) ++ (if hasValidTs then ["HYP_004"] else [])
      else []
    let h5 :=
      if orders.hasCol "order_purchase_timestamp" &&
          orders.hasCol "order_delivered_customer_date" then
        if (tsCells.zip dlCells).any (fun p => !p.1.isNull && !p.2.isNull) then
          ["HYP_005"]
        else []
      else []
    (h34 ++ h5, st)

/-- `HypothesisGenerator.generate_review_hypotheses`
(`hypothesis_generator.py` lines 284–341). Line 291 takes
`reviews = self.datasets['Reviews.csv']` WITHOUT `.copy()`: the later column
assignments act on the stored frame itself. Line 313 rewrites
`review_creation_date` through `pd.to_datetime(…, errors='coerce')`; line 317
likewise rewrites `order_delivered_customer_date` when both columns exist;
line 324 assigns the new column `comment_length`. HYP_010 is emitted when
`review_score` exists with a nonempty `value_counts`; HYP_011 when
`review_comment_message` exists and the mean comment length is positive. -/
def generate_review_hypotheses (parse : Cell → Cell) (st : Datasets) :
    List String × Datasets :=
  match st.lookup "Reviews.csv" with
  | none => ([], st)
  | some reviews0 =>
    let h10 :=
      if reviews0.hasCol "review_score" then
        if (colCells reviews0 "review_score").any (fun c => !c.isNull) then ["HYP_010"]
        else []
      else []
    let r1 :=
      if reviews0.hasCol "review_creation_date" then
        reviews0.mapCol "review_creation_date" (toDatetimeCol parse)
      else reviews0
    let r2 :=
      if reviews0.hasCol "review_creation_date" &&
          r1.hasCol "order_delivered_customer_date" then
        r1.mapCol "order_delivered_customer_date" (toDatetimeCol parse)
      else r1
    let lengths := (colCells r2 "review_comment_message").map strLenCell
    let r3 :=
      if r2.hasCol "review_comment_message" then
        r2.setCol "comment_length" Dtype.numeric lengths
      else r2
    let h11 :=
      if r2.hasCol "review_comment_message" then
        if 0 < cellsSum lengths / (lengths.length : ℚ) then ["HYP_011"] else []
      else []
    (h10 ++ h11, stUpdate st "Reviews.csv" r3)

/-- State effect of `HypothesisGenerator.generate_correlation_hypotheses`
(lines 55–104): the method merges Orders with Order Items into a fresh frame
and reads `Products.csv`; it assigns no column on a stored frame, so the
datasets mapping is unchanged. -/
def generate_correlation_hypotheses_state (st : Datasets) : Datasets := st

/-- State effect of `HypothesisGenerator.generate_customer_hypotheses`
(lines 181–229): `value_counts` reads only; no column assignment on a stored
frame. -/
def generate_customer_hypotheses_state (st : Datasets) : Datasets := st

/-- State effect of `HypothesisGenerator.generate_product_hypotheses`
(lines 231–282): reads only. -/
def generate_product_hypotheses_state (st : Datasets) : Datasets := st

/-- State effect of `HypothesisGenerator.generate_payment_hypotheses`
(lines 343–388): reads only. -/
def generate_payment_hypotheses_state (st : Datasets) : Datasets := st

/-- State effect of `HypothesisGenerator.generate_seller_hypotheses`
(lines 390–418): reads only. -/
def generate_seller_hypotheses_state (st : Datasets) : Datasets := st

/-- State effect of `HypothesisGenerator.run_hypothesis_generation`
(lines 446–469): the seven generators run in sequence over `self.datasets`. -/
def run_hypothesis_generation_state (parse : Cell → Cell) (st : Datasets) : Datasets :=
  let st1 := generate_correlation_hypotheses_state st
  let st2 := (generate_temporal_hypotheses parse st1).2
  let st3 := generate_customer_hypotheses_state st2
  let st4 := generate_product_hypotheses_state st3
  let st5 := (generate_review_hypotheses parse st4).2
  let st6 := generate_payment_hypotheses_state st5
  generate_seller_hypotheses_state st6

/-! ## `AnalysisCodeGenerator` (C7)

Each `generate_*_code` method of `code_generator.py` assigns `code = '''…'''`
— one closed triple-quoted string literal with no f-string, no `.format`, and
no reference to `self.datasets` — and writes it out. The literals (90–200
lines each) are abridged here to their opening lines; the property verified
(C7) depends only on each template being a fixed literal, which the
abridgement preserves. -/

/-- Generator state: constructor arguments and the (never consulted)
datasets attribute. -/
structure AnalysisCodeGenerator where
  data_dir : String
  output_dir : String
  datasets : List (String × DataFrame)

/-- Template of `generate_data_preprocessing_code` (lines 37–230). -/
def preprocessing_template : String :=
  "\x22\x22\x22\nData Preprocessing Module for E-commerce Analysis\nHandles data loading, cleaning, and preparation\n\x22\x22\x22\n\nclass DataPreprocessor:\n    \x22\x22\x22Data preprocessing and cleaning\x22\x22\x22\n"

/-- Template of `generate_quality_checks_code` (lines 244–533). -/
def quality_checks_template : String :=
  "\x22\x22\x22\nData Quality Validation Module\nPerforms comprehensive data quality checks and validation\n\x22\x22\x22\n\nclass DataQualityValidator:\n    \x22\x22\x22Validate data quality across all datasets\x22\x22\x22\n"

/-- Template of `generate_analysis_functions_code` (lines 376–532). -/
def analysis_functions_template : String :=
  "\x22\x22\x22\nCore Analysis Functions for E-commerce Data\nStatistical analysis, pattern discovery, and metrics calculation\n\x22\x22\x22\n\nclass EcommerceAnalyzer:\n    \x22\x22\x22Core analysis functions for e-commerce data\x22\x22\x22\n"

/-- Template of `generate_complete_pipeline_code` (lines 543–704). -/
def complete_pipeline_template : String :=
  "\x22\x22\x22\nComplete E-commerce Analysis Pipeline\nEnd-to-end analysis from raw data to insights\n\x22\x22\x22\n\nclass CompleteAnalysisPipeline:\n    \x22\x22\x22Complete analysis workflow\x22\x22\x22\n"

/-- Template of `generate_unit_tests_code` (lines 715–815). -/
def unit_tests_template : String :=
  "\x22\x22\x22\nUnit Tests for E-commerce Analysis\nTest data preprocessing, analysis functions, and quality checks\n\x22\x22\x22\n"

/-- `AnalysisCodeGenerator.generate_data_preprocessing_code` (lines 33–238):
the emitted source text. -/
def generate_data_preprocessing_code (_g : AnalysisCodeGenerator) : String :=
  preprocessing_template

/-- `AnalysisCodeGenerator.generate_quality_checks_code` (lines 240–537). -/
def generate_quality_checks_code (_g : AnalysisCodeGenerator) : String :=
  quality_checks_template

/-- `AnalysisCodeGenerator.generate_analysis_functions_code` (lines 372–537). -/
def generate_analysis_functions_code (_g : AnalysisCodeGenerator) : String :=
  analysis_functions_template

/-- `AnalysisCodeGenerator.generate_complete_pipeline_code` (lines 539–709). -/
def generate_complete_pipeline_code (_g : AnalysisCodeGenerator) : String :=
  complete_pipeline_template

/-- `AnalysisCodeGenerator.generate_unit_tests_code` (lines 711–820). -/
def generate_unit_tests_code (_g : AnalysisCodeGenerator) : String :=
  unit_tests_template

/-! # Theorems settling the claims -/

/-- The NaN-aware whole-column count of `assess_accuracy` agrees with the
count over the non-null values. -/
theorem countP_cellOutlier (lb ub : ℚ) (col : List (Option ℚ)) :
    col.countP (cellOutlier lb ub) =
      (nonNull col).countP fun x => decide (x < lb) || decide (ub < x) := by
  induction col with
  | nil => rfl
  | cons hd tl ih =>
    cases hd <;>
      simp [nonNull, List.filterMap_cons, List.countP_cons, cellOutlier, ih]

/-- The strictly-outside values and the closed-interval values partition a
column's non-null population. -/
theorem countP_fence_partition (lb ub : ℚ) (xs : List ℚ) :
    (xs.countP fun x => decide (x < lb) || decide (ub < x)) +
      (xs.countP fun x => decide (lb ≤ x) && decide (x ≤ ub)) = xs.length := by
  induction xs with
  | nil => rfl
  | cons a tl ih =>
    simp only [List.countP_cons]
    by_cases h1 : a < lb
    · have h2 : ¬ lb ≤ a := not_le.mpr h1
      simp [h1, h2]
      omega
    · by_cases h3 : ub < a
      · have h4 : ¬ a ≤ ub := not_le.mpr h3
        simp [h1, h3, h4]
        omega
      · simp [h1, h3, not_lt.mp h1, not_lt.mp h3]
        omega

/-- Closed form of the `assess_accuracy` per-column count. -/
theorem assess_accuracy_outliers_eq (col : List (Option ℚ)) :
    assess_accuracy_outliers col =
      (nonNull col).countP fun x =>
        decide (x < lowerFence col) || decide (upperFence col < x) := by
  simp only [assess_accuracy_outliers]
  by_cases h : 0 < (nonNull col).length
  · rw [if_pos h, countP_cellOutlier]
  · rw [if_neg h]
    have h0 : nonNull col = [] := List.length_eq_zero.mp (by omega)
    simp [h0]

/-- Closed form of the `detect_anomalies` per-column count. -/
theorem detect_anomalies_outliers_eq (col : List (Option ℚ)) :
    detect_anomalies_outliers col =
      (nonNull col).countP fun x =>
        decide (x < lowerFence col) || decide (upperFence col < x) := by
  simp only [detect_anomalies_outliers]
  by_cases h : 0 < (nonNull col).length
  · rw [if_pos h, List.countP_eq_length_filter]
  · rw [if_neg h]
    have h0 : nonNull col = [] := List.length_eq_zero.mp (by omega)
    simp [h0]

/-- Closed form of the `check_accuracy` per-column count. -/
theorem check_accuracy_outliers_eq (col : List (Option ℚ)) :
    check_accuracy_outliers col =
      (nonNull col).countP fun x =>
        decide (x < lowerFence col) || decide (upperFence col < x) := by
  simp only [check_accuracy_outliers]
  by_cases h : 0 < (nonNull col).length
  · rw [if_pos h]
  · rw [if_neg h]
    have h0 : nonNull col = [] := List.length_eq_zero.mp (by omega)
    simp [h0]

/-- A list of four zeros sorts to itself. -/
theorem mergeSort_zeros :
    ([0, 0, 0, 0] : List ℚ).mergeSort (· ≤ ·) = [0, 0, 0, 0] :=
  List.mergeSort_of_sorted (by norm_num [List.pairwise_cons])

/-- The counterexample column `[0, 0, 0, 100]` is already sorted. -/
theorem mergeSort_col9 :
    ([0, 0, 0, 100] : List ℚ).mergeSort (· ≤ ·) = [0, 0, 0, 100] :=
  List.mergeSort_of_sorted (by norm_num [List.pairwise_cons])

/-- Every position of the all-zero list reads 0 (default included). -/
theorem getD_zeros (n : ℕ) : ([0, 0, 0, 0] : List ℚ).getD n 0 = 0 := by
  match n with
  | 0 => rfl
  | 1 => rfl
  | 2 => rfl
  | 3 => rfl
  | _ + 4 => rfl

/-- Any quantile of a constant-zero population is 0. -/
theorem quantile_zeros (q : ℚ) : quantile [0, 0, 0, 0] q = 0 := by
  simp only [quantile, mergeSort_zeros, List.length_cons, List.length_nil,
    getD_zeros]
  norm_num

/-- `Q1` of `[0, 0, 0, 100]` under linear interpolation: `h = 3/4`, so the
result interpolates between the first two zeros. -/
theorem quantile_col9_q1 : quantile [0, 0, 0, 100] (1/4) = 0 := by
  simp only [quantile, mergeSort_col9, List.length_cons, List.length_nil]
  rw [if_neg (by norm_num)]
  have h34 : (1/4 : ℚ) * (((4:ℕ) : ℚ) - 1) = 3/4 := by push_cast; norm_num
  rw [h34]
  have hf : ⌊(3/4 : ℚ)⌋ = 0 := by norm_num [Int.floor_eq_iff]
  rw [hf]
  norm_num [List.getD_cons_zero, List.getD_cons_succ]

/-- `Q3` of `[0, 0, 0, 100]` under linear interpolation: `h = 9/4`, so the
result is `0 + 1/4 * (100 - 0) = 25`. -/
theorem quantile_col9_q3 : quantile [0, 0, 0, 100] (3/4) = 25 := by
  simp only [quantile, mergeSort_col9, List.length_cons, List.length_nil]
  rw [if_neg (by norm_num)]
  have h94 : (3/4 : ℚ) * (((4:ℕ) : ℚ) - 1) = 9/4 := by push_cast; norm_num
  rw [h94]
  have hf : ⌊(9/4 : ℚ)⌋ = 2 := by norm_num [Int.floor_eq_iff]
  rw [hf]
  norm_num [show Int.toNat 2 = 2 from rfl, List.getD_cons_zero,
    List.getD_cons_succ, min_self]

/-- Fences of a constant-zero column collapse to `[0, 0]`. -/
theorem fences_zeros :
    lowerFence [some 0, some 0, some 0, some (0:ℚ)] = 0 ∧
    upperFence [some 0, some 0, some 0, some (0:ℚ)] = 0 := by
  have hn : nonNull [some 0, some 0, some 0, some (0:ℚ)] = [0, 0, 0, 0] := rfl
  constructor <;>
    simp only [lowerFence, upperFence, hn, quantile_zeros] <;> norm_num

/-- Fences of `[0, 0, 0, 100]`: `Q1 = 0`, `Q3 = 25`, `IQR = 25`, so the
fences are `-37.5` and `62.5`. -/
theorem fences_col9 :
    lowerFence [some 0, some 0, some 0, some (100:ℚ)] = -75/2 ∧
    upperFence [some 0, some 0, some 0, some (100:ℚ)] = 125/2 := by
  have hn : nonNull [some 0, some 0, some 0, some (100:ℚ)] = [0, 0, 0, 100] := rfl
  constructor <;>
    simp only [lowerFence, upperFence, hn, quantile_col9_q1, quantile_col9_q3] <;>
    norm_num

/-- A constant-zero column has no outliers. -/
theorem detect_zeros_count :
    detect_anomalies_outliers [some 0, some 0, some 0, some (0:ℚ)] = 0 := by
  rw [detect_anomalies_outliers_eq]
  have hn : nonNull [some 0, some 0, some 0, some (0:ℚ)] = [0, 0, 0, 0] := rfl
  rw [fences_zeros.1, fences_zeros.2, hn]
  norm_num [List.countP_cons, List.countP_nil]

/-- `[0, 0, 0, 100]` has exactly one outlier: `100 > 62.5`. -/
theorem detect_col9_count :
    detect_anomalies_outliers [some 0, some 0, some 0, some (100:ℚ)] = 1 := by
  rw [detect_anomalies_outliers_eq]
  have hn : nonNull [some 0, some 0, some 0, some (100:ℚ)] = [0, 0, 0, 100] := rfl
  rw [fences_col9.1, fences_col9.2, hn]
  norm_num [List.countP_cons, List.countP_nil]

/-- `assess_accuracy` counts per column exactly as `detect_anomalies` does. -/
theorem assess_eq_detect (col : List (Option ℚ)) :
    assess_accuracy_outliers col = detect_anomalies_outliers col := by
  rw [assess_accuracy_outliers_eq, detect_anomalies_outliers_eq]

/-- `check_accuracy` counts per column exactly as `detect_anomalies` does. -/
theorem check_eq_detect (col : List (Option ℚ)) :
    check_accuracy_outliers col = detect_anomalies_outliers col := by
  rw [check_accuracy_outliers_eq, detect_anomalies_outliers_eq]

/-- C1 counterexample frame: nine numeric columns of four rows; the first
eight are constant zero, the ninth (`c9`) is `[0, 0, 0, 100]` with `100`
strictly above its upper fence. -/
def dfNine : DataFrame :=
  ⟨4, [⟨"c1", Dtype.numeric, [Cell.num 0, Cell.num 0, Cell.num 0, Cell.num 0]⟩,
       ⟨"c2", Dtype.numeric, [Cell.num 0, Cell.num 0, Cell.num 0, Cell.num 0]⟩,
       ⟨"c3", Dtype.numeric, [Cell.num 0, Cell.num 0, Cell.num 0, Cell.num 0]⟩,
       ⟨"c4", Dtype.numeric, [Cell.num 0, Cell.num 0, Cell.num 0, Cell.num 0]⟩,
       ⟨"c5", Dtype.numeric, [Cell.num 0, Cell.num 0, Cell.num 0, Cell.num 0]⟩,
       ⟨"c6", Dtype.numeric, [Cell.num 0, Cell.num 0, Cell.num 0, Cell.num 0]⟩,
       ⟨"c7", Dtype.numeric, [Cell.num 0, Cell.num 0, Cell.num 0, Cell.num 0]⟩,
       ⟨"c8", Dtype.numeric, [Cell.num 0, Cell.num 0, Cell.num 0, Cell.num 0]⟩,
       ⟨"c9", Dtype.numeric, [Cell.num 0, Cell.num 0, Cell.num 0, Cell.num 100]⟩]⟩

/-- C1 counterexample: on a frame with nine numeric columns,
`detect_anomalies` records no outlier at all (its loop stops after the first
eight numeric columns), although `c9` is a numeric column of the frame whose
value `100` is strictly above its upper IQR fence — and the other two
detectors do count it. The claim's universal over every numeric column
therefore fails for `detect_anomalies`. -/
theorem C1_counterexample :
    detect_anomalies_statistical_outliers dfNine = [] ∧
    "c9" ∈ (numericCols dfNine).map Column.name ∧
    (colCells dfNine "c9").map Cell.toNum = [some 0, some 0, some 0, some 100] ∧
    cellOutlier (lowerFence [some 0, some 0, some 0, some (100:ℚ)])
      (upperFence [some 0, some 0, some 0, some (100:ℚ)]) (some 100) = true ∧
    assess_accuracy_outlier_count dfNine = 1 ∧
    check_accuracy_outliers [some 0, some 0, some 0, some (100:ℚ)] = 1 := by
  refine ⟨?_, by decide, rfl, ?_, ?_, ?_⟩
  · simp [detect_anomalies_statistical_outliers, dfNine, numericCols,
      Cell.toNum, detect_zeros_count]
  · simp only [cellOutlier, fences_col9.1, fences_col9.2, Bool.or_eq_true,
      decide_eq_true_eq]
    norm_num
  · simp [assess_accuracy_outlier_count, dfNine, numericCols, Cell.toNum,
      assess_eq_detect, detect_zeros_count, detect_col9_count]
  · rw [check_eq_detect, detect_col9_count]

/-- C1 (corrected). For every numeric column a detector processes, the three
outlier detectors count exactly the non-null values `x` with
`x < Q1 - 1.5*IQR` or `x > Q3 + 1.5*IQR` (quantiles over the non-null
values), and the values in the closed interval are exactly the uncounted
ones; `assess_accuracy` and `check_accuracy` apply this rule to every
numeric column of the frame, but `detect_anomalies` scans only the first
eight numeric columns. -/
theorem C1_outlier_rule_and_scope (col : List (Option ℚ)) (df : DataFrame) :
    assess_accuracy_outliers col = detect_anomalies_outliers col ∧
    detect_anomalies_outliers col = check_accuracy_outliers col ∧
    check_accuracy_outliers col =
      ((nonNull col).filter fun x =>
          decide (x < lowerFence col) || decide (upperFence col < x)).length ∧
    ((nonNull col).countP fun x =>
        decide (x < lowerFence col) || decide (upperFence col < x)) +
      ((nonNull col).countP fun x =>
        decide (lowerFence col ≤ x) && decide (x ≤ upperFence col)) =
      (nonNull col).length ∧
    detect_anomalies_statistical_outliers df =
      ((numericCols df).take 8).filterMap (fun c =>
        if 0 < ((nonNull (c.cells.map Cell.toNum)).filter fun x =>
            decide (x < lowerFence (c.cells.map Cell.toNum)) ||
            decide (upperFence (c.cells.map Cell.toNum) < x)).length then
          some (c.name,
            ((nonNull (c.cells.map Cell.toNum)).filter fun x =>
              decide (x < lowerFence (c.cells.map Cell.toNum)) ||
              decide (upperFence (c.cells.map Cell.toNum) < x)).length)
        else none) ∧
    assess_accuracy_outlier_count df =
      ((numericCols df).map fun c =>
        ((nonNull (c.cells.map Cell.toNum)).filter fun x =>
          decide (x < lowerFence (c.cells.map Cell.toNum)) ||
          decide (upperFence (c.cells.map Cell.toNum) < x)).length).sum ∧
    check_accuracy_outlier_info df =
      ((numericCols df).filterMap fun c =>
        if 0 < (nonNull (c.cells.map Cell.toNum)).length then
          some (c.name,
            ((nonNull (c.cells.map Cell.toNum)).filter fun x =>
              decide (x < lowerFence (c.cells.map Cell.toNum)) ||
              decide (upperFence (c.cells.map Cell.toNum) < x)).length)
        else none) := by
  refine ⟨?_, ?_, ?_, countP_fence_partition _ _ _, ?_, ?_, ?_⟩
  · rw [assess_accuracy_outliers_eq, detect_anomalies_outliers_eq]
  · rw [detect_anomalies_outliers_eq, check_accuracy_outliers_eq]
  · rw [check_accuracy_outliers_eq, List.countP_eq_length_filter]
  · simp only [detect_anomalies_statistical_outliers,
      detect_anomalies_outliers_eq, List.countP_eq_length_filter]
  · simp only [assess_accuracy_outlier_count, assess_accuracy_outliers_eq,
      List.countP_eq_length_filter]
  · simp only [check_accuracy_outlier_info, check_accuracy_outliers_eq,
      List.countP_eq_length_filter]

/-- C4 (confirmed). For every dataset assessed by `DataQualityAssessment`,
the stored `overall_quality_score` equals
`0.35*completeness_score + 0.30*accuracy_score + 0.20*consistency_score +
0.15*timeliness_score` (the component scores as stored in the same result
entry), rounded to two decimal places. -/
theorem C4_overall_score_blend (env : AssessEnv) (name : String) (df : DataFrame) :
    jNum (jGet (assess_dataset env name df) "overall_quality_score") =
      round2
        ((35/100) * jNum (jGet (jGet (assess_dataset env name df) "completeness")
            "completeness_score") +
         (30/100) * jNum (jGet (jGet (assess_dataset env name df) "accuracy")
            "accuracy_score") +
         (20/100) * jNum (jGet (jGet (assess_dataset env name df) "consistency")
            "consistency_score") +
         (15/100) * jNum (jGet (jGet (assess_dataset env name df) "timeliness")
            "timeliness_score")) := by
  have key : ∀ A B C D : J, calculate_overall_score A B C D =
      round2 ((35/100) * jNum (jGet A "completeness_score") +
              (30/100) * jNum (jGet B "accuracy_score") +
              (20/100) * jNum (jGet C "consistency_score") +
              (15/100) * jNum (jGet D "timeliness_score")) := by
    intro A B C D
    unfold calculate_overall_score
    congr 1
    ring
  exact key (assess_completeness df) (assess_accuracy df (env.raises name))
    (assess_consistency df) (assess_timeliness (env.recent name))

/-- The top-level keys of every per-dataset result entry of
`run_assessment`. -/
def expected_result_keys : List String :=
  ["dataset_name", "shape", "completeness", "accuracy", "consistency",
   "timeliness", "overall_quality_score"]

/-- C8 (confirmed). The results of `run_assessment` are keyed exactly by the
loaded dataset names (one entry per dataset when the names are distinct, as
dict keys are), and every entry is an object with exactly the keys
`dataset_name`, `shape`, `completeness`, `accuracy`, `consistency`,
`timeliness`, `overall_quality_score`. -/
theorem C8_results_shape (env : AssessEnv) (datasets : List (String × DataFrame)) :
    (run_assessment env datasets).map Prod.fst = datasets.map Prod.fst ∧
    (run_assessment env datasets).map (fun p => jKeys p.2) =
      datasets.map (fun _ => expected_result_keys) ∧
    ((datasets.map Prod.fst).Nodup →
      ∀ name ∈ datasets.map Prod.fst,
        ((run_assessment env datasets).countP fun p => p.1 == name) = 1) := by
  refine ⟨?_, ?_, ?_⟩
  · simp [run_assessment]
  · induction datasets with
    | nil => rfl
    | cons hd tl ih =>
      simp only [run_assessment, List.map_cons] at ih ⊢
      rw [ih]
      rfl
  · intro hnd name hmem
    have hcount : ((run_assessment env datasets).countP fun p => p.1 == name) =
        (datasets.map Prod.fst).count name := by
      simp [run_assessment, List.countP_map, List.count_eq_countP,
        Function.comp_def]
    rw [hcount]
    exact List.count_eq_one_of_mem hnd hmem

/-- A trivial library-behaviour environment (no datetime conversion raises,
no date column is recent). -/
def envTrivial : AssessEnv := ⟨fun _ _ => false, fun _ => []⟩

/-- A tiny loaded frame used by the concrete witnesses. -/
def dfOne : DataFrame := ⟨1, [⟨"a", Dtype.numeric, [Cell.num 1]⟩]⟩

/-- Concrete datasets mapping used by the C8 witness. -/
def dsPair : List (String × DataFrame) := [("Orders.csv", dfOne), ("Customers.csv", dfOne)]

/-- C8 witness: on a concrete two-dataset run the key shape holds and each
dataset name keys exactly one result entry. -/
theorem C8_results_shape_witness :
    ((run_assessment envTrivial dsPair).map Prod.fst = dsPair.map Prod.fst) ∧
    ((run_assessment envTrivial dsPair).countP fun p => p.1 == "Orders.csv") = 1 :=
  ⟨(C8_results_shape envTrivial dsPair).1,
   (C8_results_shape envTrivial dsPair).2.2 (by decide) "Orders.csv" (by decide)⟩

/-- `roundHalfEven` maps a nonnegative rational to a nonnegative integer. -/
theorem roundHalfEven_nonneg (q : ℚ) (h : 0 ≤ q) : 0 ≤ roundHalfEven q := by
  have hf : (0:ℤ) ≤ ⌊q⌋ := Int.floor_nonneg.mpr h
  simp only [roundHalfEven]
  split_ifs <;> omega

/-- `roundHalfEven` respects integer upper bounds. -/
theorem roundHalfEven_le (q : ℚ) (B : ℤ) (h : q ≤ (B:ℚ)) : roundHalfEven q ≤ B := by
  have hf : ⌊q⌋ ≤ B := by
    have h1 := Int.floor_le_floor h
    simpa using h1
  simp only [roundHalfEven]
  split_ifs with h1 h2 h3
  · exact hf
  · have hq : (1:ℚ)/2 ≤ q - (⌊q⌋ : ℚ) := not_lt.mp h1
    have hlt : (⌊q⌋ : ℚ) < (B:ℚ) := by linarith
    have : ⌊q⌋ < B := by exact_mod_cast hlt
    omega
  · exact hf
  · have hq : (1:ℚ)/2 ≤ q - (⌊q⌋ : ℚ) := not_lt.mp h1
    have hlt : (⌊q⌋ : ℚ) < (B:ℚ) := by linarith
    have : ⌊q⌋ < B := by exact_mod_cast hlt
    omega

/-- Rounding to two decimals keeps a score inside `[0, 100]`. -/
theorem round2_bounds (q : ℚ) (h0 : 0 ≤ q) (h1 : q ≤ 100) :
    0 ≤ round2 q ∧ round2 q ≤ 100 := by
  have hl : 0 ≤ roundHalfEven (q * 100) := roundHalfEven_nonneg _ (by positivity)
  have hu : roundHalfEven (q * 100) ≤ 10000 := by
    apply roundHalfEven_le
    push_cast
    linarith
  unfold round2
  constructor
  · exact div_nonneg (by exact_mod_cast hl) (by norm_num)
  · rw [div_le_iff₀ (by norm_num : (0:ℚ) < 100)]
    have : (roundHalfEven (q * 100) : ℚ) ≤ 10000 := by exact_mod_cast hu
    linarith

/-- The accuracy score is clamped below at 0 and starts from 100 minus
nonnegative penalties. -/
theorem accuracy_score_bounds (df : DataFrame) (raises : String → Bool) :
    0 ≤ accuracy_score df raises ∧ accuracy_score df raises ≤ 100 := by
  unfold accuracy_score
  refine ⟨le_max_left 0 _, max_le (by norm_num) ?_⟩
  have h1 : (0:ℚ) ≤ ((accuracy_issues df).length : ℚ) := Nat.cast_nonneg _
  have h2 : (0:ℚ) ≤ ((type_issues df raises).length : ℚ) := Nat.cast_nonneg _
  linarith

/-- The consistency score is clamped below at 0 and its penalties
(duplicate percentage, issue count) are nonnegative. -/
theorem consistency_score_bounds (df : DataFrame) :
    0 ≤ consistency_score df ∧ consistency_score df ≤ 100 := by
  unfold consistency_score
  refine ⟨le_max_left 0 _, max_le (by norm_num) ?_⟩
  have h1 : 0 ≤ duplicate_percentage df := by
    unfold duplicate_percentage
    positivity
  have h2 : (0:ℚ) ≤ ((consistency_issues df).length : ℚ) := Nat.cast_nonneg _
  linarith

/-- The timeliness fold keeps any start value of `[85, 100]` inside
`[85, 100]`. -/
theorem timeliness_fold_bounds (recent : List Bool) :
    ∀ s : ℚ, 85 ≤ s → s ≤ 100 →
      85 ≤ recent.foldl (fun t b => if b then min 100 (t + 5) else t) s ∧
      recent.foldl (fun t b => if b then min 100 (t + 5) else t) s ≤ 100 := by
  induction recent with
  | nil => exact fun s h1 h2 => ⟨h1, h2⟩
  | cons b tl ih =>
    intro s h1 h2
    simp only [List.foldl_cons]
    cases b
    · exact ih s h1 h2
    · refine ih _ (le_min (by norm_num) (by linarith)) (min_le_left _ _)

/-- The timeliness score (start 85, capped +5 boosts) stays in `[85, 100]`. -/
theorem timeliness_score_bounds (recent : List Bool) :
    85 ≤ timeliness_score recent ∧ timeliness_score recent ≤ 100 :=
  timeliness_fold_bounds recent 85 le_rfl (by norm_num)

/-- C9 (confirmed). The component scores are bounded: the accuracy and
consistency scores always lie in `[0, 100]`, the timeliness score always lies
in `[85, 100]`, and whenever the (stored, rounded) completeness score lies in
`[0, 100]` the overall weighted score also lies in `[0, 100]`. -/
theorem C9_component_score_bounds :
    (∀ (df : DataFrame) (raises : String → Bool),
        0 ≤ accuracy_score df raises ∧ accuracy_score df raises ≤ 100) ∧
    (∀ df : DataFrame, 0 ≤ consistency_score df ∧ consistency_score df ≤ 100) ∧
    (∀ recent : List Bool, 85 ≤ timeliness_score recent ∧ timeliness_score recent ≤ 100) ∧
    (∀ (df : DataFrame) (raises : String → Bool) (recent : List Bool),
        0 ≤ round2 (completeness_score_raw df) →
        round2 (completeness_score_raw df) ≤ 100 →
        0 ≤ calculate_overall_score (assess_completeness df) (assess_accuracy df raises)
              (assess_consistency df) (assess_timeliness recent) ∧
          calculate_overall_score (assess_completeness df) (assess_accuracy df raises)
              (assess_consistency df) (assess_timeliness recent) ≤ 100) := by
  refine ⟨accuracy_score_bounds, consistency_score_bounds, timeliness_score_bounds, ?_⟩
  intro df raises recent hc0 hc1
  have ha := accuracy_score_bounds df raises
  have hs := consistency_score_bounds df
  have ht := timeliness_score_bounds recent
  have ha2 := round2_bounds _ ha.1 ha.2
  have hs2 := round2_bounds _ hs.1 hs.2
  have ht2 := round2_bounds _ (le_trans (by norm_num) ht.1) ht.2
  have hkey : calculate_overall_score (assess_completeness df) (assess_accuracy df raises)
      (assess_consistency df) (assess_timeliness recent) =
      round2 (round2 (completeness_score_raw df) * (35/100) +
              round2 (accuracy_score df raises) * (30/100) +
              round2 (consistency_score df) * (20/100) +
              round2 (timeliness_score recent) * (15/100)) := rfl
  rw [hkey]
  apply round2_bounds
  · have m1 := mul_nonneg hc0 (by norm_num : (0:ℚ) ≤ 35/100)
    have m2 := mul_nonneg ha2.1 (by norm_num : (0:ℚ) ≤ 30/100)
    have m3 := mul_nonneg hs2.1 (by norm_num : (0:ℚ) ≤ 20/100)
    have m4 := mul_nonneg ht2.1 (by norm_num : (0:ℚ) ≤ 15/100)
    linarith
  · have m1 := mul_le_mul_of_nonneg_right hc1 (by norm_num : (0:ℚ) ≤ 35/100)
    have m2 := mul_le_mul_of_nonneg_right ha2.2 (by norm_num : (0:ℚ) ≤ 30/100)
    have m3 := mul_le_mul_of_nonneg_right hs2.2 (by norm_num : (0:ℚ) ≤ 20/100)
    have m4 := mul_le_mul_of_nonneg_right ht2.2 (by norm_num : (0:ℚ) ≤ 15/100)
    linarith

/-- C9 witness: the bounds applied to a concrete frame and environment. -/
theorem C9_component_score_bounds_witness :
    (0 ≤ accuracy_score dfOne (fun _ => false) ∧
      accuracy_score dfOne (fun _ => false) ≤ 100) ∧
    (0 ≤ consistency_score dfOne ∧ consistency_score dfOne ≤ 100) ∧
    (85 ≤ timeliness_score [true] ∧ timeliness_score [true] ≤ 100) ∧
    (0 ≤ calculate_overall_score (assess_completeness dfOne)
          (assess_accuracy dfOne (fun _ => false)) (assess_consistency dfOne)
          (assess_timeliness []) ∧
      calculate_overall_score (assess_completeness dfOne)
          (assess_accuracy dfOne (fun _ => false)) (assess_consistency dfOne)
          (assess_timeliness []) ≤ 100) := by
  have hm : dfOne.missingCells = 0 := by decide
  have ht : dfOne.totalCells = 1 := by decide
  have hraw : completeness_score_raw dfOne = 100 := by
    simp only [completeness_score_raw, hm, ht]
    norm_num
  have hfloor : ⌊(100 : ℚ) * 100⌋ = 10000 := by norm_num
  have h100 : round2 (100 : ℚ) = 100 := by
    simp only [round2, roundHalfEven, hfloor]
    norm_num
  refine ⟨C9_component_score_bounds.1 dfOne (fun _ => false),
    C9_component_score_bounds.2.1 dfOne,
    C9_component_score_bounds.2.2.1 [true],
    C9_component_score_bounds.2.2.2 dfOne (fun _ => false) [] ?_ ?_⟩
  · rw [hraw, h100]
    norm_num
  · rw [hraw, h100]

/-- C10 counterexample frame: 3 rows, 1 numeric column, one missing cell;
`(1 - 1/3) * 100 = 200/3` is not representable in two decimals, so the
rounded stored score differs from the exact expression. -/
def dfC10 : DataFrame :=
  ⟨3, [⟨"a", Dtype.numeric, [Cell.num 1, Cell.null, Cell.num 2]⟩]⟩

/-- C10 counterexample: `assess_completeness` returns the score rounded to
two decimals, which differs from the exact `(1 - missing/total) * 100` on a
3×1 frame with one missing cell (66.67 vs 200/3). -/
theorem C10_counterexample :
    jNum (jGet (assess_completeness dfC10) "completeness_score") ≠
      (1 - (dfC10.missingCells : ℚ) / (dfC10.totalCells : ℚ)) * 100 := by
  have hacc : jNum (jGet (assess_completeness dfC10) "completeness_score") =
      round2 (completeness_score_raw dfC10) := rfl
  have hm : dfC10.missingCells = 1 := by decide
  have ht : dfC10.totalCells = 3 := by decide
  have hraw : completeness_score_raw dfC10 = 200/3 := by
    simp only [completeness_score_raw, hm, ht]
    norm_num
  have hfloor : ⌊(200/3 : ℚ) * 100⌋ = 6666 := by norm_num [Int.floor_eq_iff]
  have h2 : round2 (200/3 : ℚ) = 6667/100 := by
    simp only [round2, roundHalfEven, hfloor]
    norm_num
  rw [hacc, hraw, h2, hm, ht]
  norm_num

/-- C10 (corrected). With at least one row and one column the divisor
`total_cells` is nonzero; `check_completeness` returns exactly
`(1 - missing_cells/total_cells) * 100`, while `assess_completeness` returns
that value rounded to two decimals; and `total_cells` is zero (the division
by zero is reached) exactly on a frame with zero rows or zero columns. -/
theorem C10_completeness_division (df df0 : DataFrame) (name : String)
    (hr : 1 ≤ df.nrows) (hc : 1 ≤ df.ncols)
    (h0 : df0.nrows = 0 ∨ df0.ncols = 0) :
    (df.totalCells : ℚ) ≠ 0 ∧
    jNum (jGet (check_completeness df name) "completeness_score") =
      (1 - (df.missingCells : ℚ) / (df.totalCells : ℚ)) * 100 ∧
    jNum (jGet (assess_completeness df) "completeness_score") =
      round2 ((1 - (df.missingCells : ℚ) / (df.totalCells : ℚ)) * 100) ∧
    df0.totalCells = 0 := by
  refine ⟨?_, rfl, rfl, ?_⟩
  · have hpos : 0 < df.totalCells := Nat.mul_pos hr hc
    exact_mod_cast hpos.ne'
  · unfold DataFrame.totalCells
    rcases h0 with h | h <;> simp [h]

/-- Frame with zero cells, reaching the zero divisor. -/
def dfZero : DataFrame := ⟨0, []⟩

/-- C10 witness: the division facts at a concrete 3×1 frame and the zero-cell
frame. -/
theorem C10_completeness_division_witness :
    (dfC10.totalCells : ℚ) ≠ 0 ∧
    jNum (jGet (check_completeness dfC10 "Orders.csv") "completeness_score") =
      (1 - (dfC10.missingCells : ℚ) / (dfC10.totalCells : ℚ)) * 100 ∧
    jNum (jGet (assess_completeness dfC10) "completeness_score") =
      round2 ((1 - (dfC10.missingCells : ℚ) / (dfC10.totalCells : ℚ)) * 100) ∧
    dfZero.totalCells = 0 :=
  C10_completeness_division dfC10 dfZero "Orders.csv" (by decide) (by decide)
    (Or.inl rfl)

/-- An inner join never has more rows than the left join of the same tables
on the same key (a left join keeps every unmatched left row). -/
theorem pdMerge_inner_length_le_left (L R : List Row) (k : String) :
    (pdMerge L R k JoinHow.inner).length ≤ (pdMerge L R k JoinHow.left).length := by
  induction L with
  | nil => simp [pdMerge]
  | cons l tl ih =>
    simp only [pdMerge] at ih ⊢
    rw [List.flatMap_cons, List.flatMap_cons]
    simp only [List.length_append]
    refine Nat.add_le_add ?_ ih
    cases hms : R.filter fun r => rowKey k r == rowKey k l with
    | nil => simp
    | cons a as => simp

/-- C2 counterexample data: a customer (`c2`) with no matching order. -/
def exCustomers : List Row :=
  [[("customer_id", Cell.str "c1"), ("customer_state", Cell.str "SP")],
   [("customer_id", Cell.str "c2"), ("customer_state", Cell.str "RJ")]]

/-- C2 counterexample data: a single order belonging to customer `c1`. -/
def exOrders : List Row :=
  [[("order_id", Cell.str "o1"), ("customer_id", Cell.str "c1")]]

/-- C2 counterexample: the Customers⋈Orders merge of
`ExploratoryDataAnalysis.cross_dataset_analysis` is an inner join, so on a
customer without orders its result differs from the left join the claim
asserts (the orderless customer row is dropped). -/
theorem C2_counterexample :
    cross_dataset_customers_orders_merge exCustomers exOrders ≠
      pdMerge exCustomers exOrders "customer_id" JoinHow.left := by decide

/-- C2 (corrected). Every Orders⋈Order-Items merge of the pipeline uses key
`order_id` with an inner join; the Orders⋈Customers merges of
`DataPreprocessor.merge_datasets` and
`EcommerceAnalyzer.analyze_customer_behavior` use key `customer_id` with a
left join, but the Customers⋈Orders merge of
`ExploratoryDataAnalysis.cross_dataset_analysis` uses key `customer_id` with
an inner join (whose result is never larger than the left join's). -/
theorem C2_merge_callsites (orders customers items : List Row) :
    merge_datasets_orders_items orders items =
      pdMerge orders items "order_id" JoinHow.inner ∧
    cross_dataset_orders_items_merge orders items =
      pdMerge orders items "order_id" JoinHow.inner ∧
    correlation_hypotheses_orders_items_merge orders items =
      pdMerge orders items "order_id" JoinHow.inner ∧
    dashboard_orders_items_merge orders items =
      pdMerge orders items "order_id" JoinHow.inner ∧
    merge_datasets_orders_customers orders customers =
      pdMerge orders customers "customer_id" JoinHow.left ∧
    analyze_customer_behavior_merge orders customers =
      pdMerge orders customers "customer_id" JoinHow.left ∧
    cross_dataset_customers_orders_merge customers orders =
      pdMerge customers orders "customer_id" JoinHow.inner ∧
    (pdMerge customers orders "customer_id" JoinHow.inner).length ≤
      (pdMerge customers orders "customer_id" JoinHow.left).length :=
  ⟨rfl, rfl, rfl, rfl, rfl, rfl, rfl, pdMerge_inner_length_le_left _ _ _⟩

/-- C3 counterexample entry: a pair with Pearson correlation `0.6`. -/
def corrPoint6 : CorrEntry := ⟨"price", "freight_value", 3/5⟩

/-- C3 counterexample: `EcommerceAnalyzer.correlation_analysis` classifies a
pair with `r = 0.6` as a strong correlation although `|r| ≤ 0.7`, against the
claimed `|r| > 0.7` threshold. -/
theorem C3_counterexample :
    corrPoint6 ∈ correlation_analysis_strong [corrPoint6] ∧
    ¬ ((7:ℚ)/10 < |corrPoint6.r|) := by
  have habs : |(3/5 : ℚ)| = 3/5 := abs_of_pos (by norm_num)
  constructor
  · simp only [correlation_analysis_strong, List.mem_filter, List.mem_singleton,
      decide_eq_true_eq, corrPoint6, habs]
    norm_num
  · simp only [corrPoint6, habs]
    norm_num

/-- C3 (corrected). `ExploratoryDataAnalysis.analyze_correlations` classifies
a pair as strong iff `|r| > 0.7` and as moderate iff `0.4 < |r| ≤ 0.7`, so its
buckets are disjoint; but `EcommerceAnalyzer.correlation_analysis` puts a pair
in its (only) strong bucket iff `|r| > 0.5` and has no moderate bucket. -/
theorem C3_correlation_buckets (m : List CorrEntry) (e : CorrEntry) :
    (e ∈ analyze_correlations_strong m ↔ e ∈ m ∧ (7:ℚ)/10 < |e.r|) ∧
    (e ∈ analyze_correlations_moderate m ↔
      e ∈ m ∧ (4:ℚ)/10 < |e.r| ∧ |e.r| ≤ (7:ℚ)/10) ∧
    analyze_correlations_moderate (analyze_correlations_strong m) = [] ∧
    (e ∈ correlation_analysis_strong m ↔ e ∈ m ∧ (1:ℚ)/2 < |e.r|) := by
  refine ⟨?_, ?_, ?_, ?_⟩
  · simp [analyze_correlations_strong, List.mem_filter]
  · simp [analyze_correlations_moderate, List.mem_filter, and_assoc]
  · refine List.filter_eq_nil_iff.mpr ?_
    intro a ha
    rw [analyze_correlations_strong, List.mem_filter] at ha
    have h7 : (7:ℚ)/10 < |a.r| := by simpa using ha.2
    simp only [Bool.and_eq_true, decide_eq_true_eq, not_and]
    intro _ h
    linarith
  · simp [correlation_analysis_strong, List.mem_filter]

/-- The loader loop keeps exactly the successfully read `.csv` files, in
order. -/
theorem loadCsvLoop_eq_filterMap (files : List String)
    (readCsv : String → Except String DataFrame) :
    loadCsvLoop files readCsv =
      (files.filter fun f => endsWithCsv f).filterMap fun f =>
        match readCsv f with
        | Except.ok df => some (f, df)
        | Except.error _ => none := by
  unfold loadCsvLoop
  generalize (files.filter fun f => endsWithCsv f) = l
  suffices h : ∀ acc : List (String × DataFrame),
      l.foldl (fun acc f =>
        match readCsv f with
        | Except.ok df => acc ++ [(f, df)]
        | Except.error _ => acc) acc =
      acc ++ (l.filterMap fun f =>
        match readCsv f with
        | Except.ok df => some (f, df)
        | Except.error _ => none) by
    simpa using h []
  induction l with
  | nil => intro acc; simp
  | cons f tl ih =>
    intro acc
    rw [List.foldl_cons, List.filterMap_cons]
    cases hr : readCsv f with
    | ok df =>
      simp only [hr]
      rw [ih]
      simp
    | error e =>
      simp only [hr]
      rw [ih]

/-- The `read_csv` environment of the C5 counterexample: reading `a.csv`
raises a parser error, reading `b.csv` succeeds. -/
def readCsvBoom : String → Except String DataFrame :=
  fun f => if f = "b.csv" then Except.ok dfOne else Except.error "ParserError: a.csv"

/-- C5 counterexample: with `a.csv` failing to read,
`DataQualityAssessment.load_datasets` returns a datasets mapping (it does not
propagate the library error) and that mapping silently omits the failed
file. -/
theorem C5_counterexample :
    DQA_load_datasets ["a.csv", "b.csv"] readCsvBoom = Except.ok [("b.csv", dfOne)] ∧
    DQA_load_datasets ["a.csv", "b.csv"] readCsvBoom ≠
      Except.error "ParserError: a.csv" ∧
    "a.csv" ∉ (loadCsvLoop ["a.csv", "b.csv"] readCsvBoom).map Prod.fst := by
  refine ⟨rfl, ?_, by decide⟩
  intro h
  exact Except.noConfusion h

/-- C5 (corrected). The three loaders catch every CSV read error inside the
loop, continue with the remaining files, and return a mapping holding exactly
the successfully read `.csv` files — the library exception never propagates
to the caller. -/
theorem C5_loaders_catch_and_skip (files : List String)
    (readCsv : String → Except String DataFrame) :
    DQA_load_datasets files readCsv =
      Except.ok ((files.filter fun f => endsWithCsv f).filterMap fun f =>
        match readCsv f with
        | Except.ok df => some (f, df)
        | Except.error _ => none) ∧
    EDA_load_datasets files readCsv =
      Except.ok ((files.filter fun f => endsWithCsv f).filterMap fun f =>
        match readCsv f with
        | Except.ok df => some (f, df)
        | Except.error _ => none) ∧
    HG_load_data files readCsv =
      Except.ok ((files.filter fun f => endsWithCsv f).filterMap fun f =>
        match readCsv f with
        | Except.ok df => some (f, df)
        | Except.error _ => none) :=
  ⟨congrArg Except.ok (loadCsvLoop_eq_filterMap files readCsv),
   congrArg Except.ok (loadCsvLoop_eq_filterMap files readCsv),
   congrArg Except.ok (loadCsvLoop_eq_filterMap files readCsv)⟩

/-- Updating one stored frame leaves every other entry of the datasets dict
unchanged. -/
theorem stUpdate_filter_ne (st : Datasets) (name : String) (df : DataFrame) :
    (stUpdate st name df).filter (fun p => p.1 != name) =
      st.filter (fun p => p.1 != name) := by
  induction st with
  | nil => rfl
  | cons hd tl ih =>
    simp only [stUpdate, List.map_cons, List.filter_cons] at ih ⊢
    by_cases h : hd.1 = name
    · simp [h, ih]
    · simp [h, ih]

/-- C6 counterexample frame: a Reviews table with a comment column. -/
def reviewsDf : DataFrame :=
  ⟨1, [⟨"review_comment_message", Dtype.object, [Cell.str "ok"]⟩]⟩

/-- C6 counterexample datasets mapping. -/
def stReviews : Datasets := [("Reviews.csv", reviewsDf)]

/-- C6 counterexample: `generate_review_hypotheses` (and hence the whole
hypothesis-generation run) rewrites the stored Reviews frame in place — here
it appends the `comment_length` column to `self.datasets['Reviews.csv']`. -/
theorem C6_counterexample :
    (generate_review_hypotheses (fun c => c) stReviews).2 ≠ stReviews ∧
    run_hypothesis_generation_state (fun c => c) stReviews ≠ stReviews := by
  constructor <;> decide

/-- C6 (corrected). `generate_temporal_hypotheses` copies the Orders frame
and leaves the stored datasets unchanged; the five read-only generators leave
them unchanged; `generate_review_hypotheses` (and hence the whole run)
changes at most the stored `Reviews.csv` frame, leaving every other entry
unchanged. -/
theorem C6_hypgen_state_effects (parse : Cell → Cell) (st : Datasets) :
    (generate_temporal_hypotheses parse st).2 = st ∧
    generate_correlation_hypotheses_state st = st ∧
    generate_customer_hypotheses_state st = st ∧
    generate_product_hypotheses_state st = st ∧
    generate_payment_hypotheses_state st = st ∧
    generate_seller_hypotheses_state st = st ∧
    ((generate_review_hypotheses parse st).2).filter (fun p => p.1 != "Reviews.csv") =
      st.filter (fun p => p.1 != "Reviews.csv") ∧
    (run_hypothesis_generation_state parse st).filter (fun p => p.1 != "Reviews.csv") =
      st.filter (fun p => p.1 != "Reviews.csv") := by
  have htemp : ∀ st' : Datasets, (generate_temporal_hypotheses parse st').2 = st' := by
    intro st'
    unfold generate_temporal_hypotheses
    cases st'.lookup "Orders.csv" <;> rfl
  have hrev : ∀ st' : Datasets,
      ((generate_review_hypotheses parse st').2).filter (fun p => p.1 != "Reviews.csv") =
        st'.filter (fun p => p.1 != "Reviews.csv") := by
    intro st'
    unfold generate_review_hypotheses
    cases h : st'.lookup "Reviews.csv" with
    | none => rfl
    | some r => exact stUpdate_filter_ne st' "Reviews.csv" _
  have hrun : run_hypothesis_generation_state parse st =
      (generate_review_hypotheses parse (generate_temporal_hypotheses parse st).2).2 := rfl
  refine ⟨htemp st, rfl, rfl, rfl, rfl, rfl, hrev st, ?_⟩
  rw [hrun, htemp st]
  exact hrev st

/-- C7 (confirmed). Every `generate_*_code` method of the code generator
emits a fixed string constant: for any two generator states (any loaded
datasets, any directories) the emitted Python source text is identical. -/
theorem C7_codegen_templates_static (g g' : AnalysisCodeGenerator) :
    generate_data_preprocessing_code g = generate_data_preprocessing_code g' ∧
    generate_quality_checks_code g = generate_quality_checks_code g' ∧
    generate_analysis_functions_code g = generate_analysis_functions_code g' ∧
    generate_complete_pipeline_code g = generate_complete_pipeline_code g' ∧
    generate_unit_tests_code g = generate_unit_tests_code g' :=
  ⟨rfl, rfl, rfl, rfl, rfl⟩

end CompleteAnalysis
